import Mathlib

/-!
Verification of the ts-type-explorer flattening and tree-view localization code.

The embedding follows the two source files that the claims are about:

* `generateFlattenedTypeDefinition` (the flattener invoked by the
  `copyTypeAsTypescriptType` command), and
* `typeTreeViewLocalizer.ts` (`getMeta` with its inner helpers
  `getCollapsibleState`, `getContextValue`, `getIcon`/`_getIcon`, plus the
  label/description helpers).

JavaScript conventions modelled explicitly:

* `undefined`-able fields become `Option _`; JS truthiness of a string
  (`if (info._id)`, `if (info.purpose)`) is modelled by `jsTruthy`, which
  treats the empty string like `undefined`.
* The flattener is async and recurses through the external resolver, so it
  has no structural termination measure; it takes a fuel argument, with
  `none` meaning the computation did not finish within the fuel.
* JS exceptions that can escape the flattener (calling `.toString()` on an
  `undefined` literal value, indexing `info.locations[0]` when the
  `locations` field is absent) are modelled as `Except.error ()`.
-/

namespace TsTypeExplorer

/-- Symbol metadata attached to a localized node (`info.symbol` in the
source; the localizer reads `name`, `anonymous`, `property`, `isArgument`
and `insideClassOrInterface`). -/
structure SymbolInfo where
  name : Option String := none
  anonymous : Bool := false
  property : Bool := false
  isArgument : Bool := false
  insideClassOrInterface : Bool := false
deriving DecidableEq

/-- The fields of a `LocalizedTypeInfo`, parametrised by the node type so
that the recursive `children` list can be tied off below.  `aliasName`
models the source field `alias` (`alias` is a reserved word here).
`location` is the singular property the flattener's reference guard reads;
`locations` is the list the localizer and the reference resolution read.
Source locations themselves are opaque; they are modelled as `Nat`. -/
structure InfoF (α : Type) where
  _id : Option String := none
  kind : String := ""
  primitiveKind : Option String := none
  value : Option String := none
  location : Option Nat := none
  locations : Option (List Nat) := none
  symbol : Option SymbolInfo := none
  optional : Bool := false
  readonly : Bool := false
  rest : Bool := false
  dimension : Option Nat := none
  purpose : Option String := none
  name : Option String := none
  kindText : Option String := none
  aliasName : Option String := none
  children : Option (List α) := none

/-- A localized type-tree node (`LocalizedTypeInfo` in the api package). -/
inductive LocalizedTypeInfo : Type where
  | node : InfoF LocalizedTypeInfo → LocalizedTypeInfo

/-- Field accessor for a localized node. -/
def LocalizedTypeInfo.f : LocalizedTypeInfo → InfoF LocalizedTypeInfo
  | node fs => fs

/-- JS truthiness of an optional string: `undefined` and `""` are falsy.
Used for `info._id`, `info.purpose`, `info.kindText`, label overrides. -/
def jsTruthy : Option String → Option String
  | none => none
  | some s => if s = "" then none else some s

/-- Modelled from the spec: the external `TypeInfoResolver` of the api
package together with the `getTypeTreeAtLocation` server round-trip, which
are not part of this repository's sources.  `localizeChildren` localizes a
node's children, failing per-child (an `Except.error` marker occupies the
slot of a child that could not be localized, the siblings still resolve).
`resolveAtLocation` is the composition
`resolver.localize (await getTypeTreeAtLocation loc)` used by the
flattener's reference branch: it either produces a localized node or fails
(yields nothing). -/
structure TypeInfoResolver where
  localizeChildren : LocalizedTypeInfo → List (Except Unit LocalizedTypeInfo)
  resolveAtLocation : Option Nat → Option LocalizedTypeInfo

/-- Result of one flattening step: `none` when the fuel ran out, otherwise
either a JS exception or the produced text together with the updated
visited-set (the `seenRefs` set is shared by reference in the source, so it
is threaded through explicitly here). -/
abbrev FlatRes := Option (Except Unit (String × List String))

/-- Sequential processing of a localized-children list as done by the
`tuple`/`union`/`intersection` branches: each child (including error
markers) is passed to the recursive flattening call.  An error-marker
object has neither `_id` nor any handled `kind`, so the recursive call on
it falls through every guard and yields `any` without touching the
visited-set; that case is inlined here. -/
def flattenSeq (f : LocalizedTypeInfo → List String → FlatRes) :
    List (Except Unit LocalizedTypeInfo) → List String →
    Option (Except Unit (List String × List String))
  | [], seen => some (Except.ok ([], seen))
  | Except.error _ :: rest, seen =>
    match flattenSeq f rest seen with
    | some (Except.ok (ts, seen')) => some (Except.ok ("any" :: ts, seen'))
    | other => other
  | Except.ok c :: rest, seen =>
    match f c seen with
    | none => none
    | some (Except.error e) => some (Except.error e)
    | some (Except.ok (t, seen')) =>
      match flattenSeq f rest seen' with
      | some (Except.ok (ts, seen'')) => some (Except.ok ((t :: ts), seen''))
      | other => other

/-- The property entry built by the `object` branch for a non-error child:
`` `${child.symbol?.name ?? 'unknown'}${child.optional ? '?' : ''}: ${propertyType}` ``. -/
def mkProperty (c : LocalizedTypeInfo) (t : String) : String :=
  ((c.f.symbol.bind SymbolInfo.name).getD "unknown") ++
    (if c.f.optional then "?" else "") ++ ": " ++ t

/-- Sequential processing of a localized-children list as done by the
`object` branch: error markers become `null` entries which are filtered
out afterwards (modelled by skipping them), every other child contributes
one `name?: Type` entry. -/
def objectProps (f : LocalizedTypeInfo → List String → FlatRes) :
    List (Except Unit LocalizedTypeInfo) → List String →
    Option (Except Unit (List String × List String))
  | [], seen => some (Except.ok ([], seen))
  | Except.error _ :: rest, seen => objectProps f rest seen
  | Except.ok c :: rest, seen =>
    match f c seen with
    | none => none
    | some (Except.error e) => some (Except.error e)
    | some (Except.ok (t, seen')) =>
      match objectProps f rest seen' with
      | some (Except.ok (ps, seen'')) => some (Except.ok (mkProperty c t :: ps, seen''))
      | other => other

/-- The kind dispatch of `generateFlattenedTypeDefinition` (everything
after the circular-reference guard and the visited-set insertion), with
`fl` standing for the recursive call.  Mirrors the source's guard order:
`reference` (guarded on the singular `info.location` property being
truthy, while resolution reads `info.locations[0]`), `primitive`,
`object`, `array`, `tuple`, `union`, `intersection`, the three literal
kinds, and `any` for everything else. -/
def flattenBody (res : TypeInfoResolver)
    (fl : LocalizedTypeInfo → List String → FlatRes)
    (info : LocalizedTypeInfo) (seen : List String) : FlatRes :=
  if info.f.kind = "reference" ∧ info.f.location.isSome = true then
      match info.f.locations with
      | none => some (Except.error ())
      | some ls =>
        match res.resolveAtLocation ls.head? with
        | some r => fl r seen
        | none => some (Except.ok ("any // Failed to resolve reference", seen))
    else if info.f.kind = "primitive" then
      some (Except.ok (info.f.primitiveKind.getD "any", seen))
    else if info.f.kind = "object" then
      match res.localizeChildren info with
      | [] => some (Except.ok ("{}", seen))
      | cs =>
        match objectProps fl cs seen with
        | some (Except.ok (ps, seen')) =>
          some (Except.ok ("\x7b " ++ String.intercalate "; " ps ++ " \x7d", seen'))
        | some (Except.error e) => some (Except.error e)
        | none => none
    else if info.f.kind = "array" then
      match res.localizeChildren info with
      | [] => some (Except.ok ("any[]", seen))
      | Except.error _ :: _ => some (Except.ok ("any" ++ "[]", seen))
      | Except.ok c :: _ =>
        match fl c seen with
        | some (Except.ok (t, seen')) => some (Except.ok (t ++ "[]", seen'))
        | other => other
    else if info.f.kind = "tuple" then
      match flattenSeq fl (res.localizeChildren info) seen with
      | some (Except.ok (ts, seen')) =>
        some (Except.ok ("[" ++ String.intercalate ", " ts ++ "]", seen'))
      | some (Except.error e) => some (Except.error e)
      | none => none
    else if info.f.kind = "union" then
      match flattenSeq fl (res.localizeChildren info) seen with
      | some (Except.ok (ts, seen')) =>
        some (Except.ok (String.intercalate " | " ts, seen'))
      | some (Except.error e) => some (Except.error e)
      | none => none
    else if info.f.kind = "intersection" then
      match flattenSeq fl (res.localizeChildren info) seen with
      | some (Except.ok (ts, seen')) =>
        some (Except.ok (String.intercalate " & " ts, seen'))
      | some (Except.error e) => some (Except.error e)
      | none => none
    else if info.f.kind = "string_literal" then
      some (Except.ok ("\"" ++ info.f.value.getD "undefined" ++ "\"", seen))
    else if info.f.kind = "number_literal" then
      match info.f.value with
      | some v => some (Except.ok (v, seen))
      | none => some (Except.error ())
    else if info.f.kind = "boolean_literal" then
      match info.f.value with
      | some v => some (Except.ok (v, seen))
      | none => some (Except.error ())
    else
      some (Except.ok ("any", seen))

/-- One unfolding of `generateFlattenedTypeDefinition`: the
circular-reference guard (`if (info._id && seenRefs.has(info._id))`), the
visited-set insertion (`if (info._id) seenRefs.add(info._id)`), then the
kind dispatch. -/
def flattenF (res : TypeInfoResolver)
    (fl : LocalizedTypeInfo → List String → FlatRes)
    (info : LocalizedTypeInfo) (seen0 : List String) : FlatRes :=
  match jsTruthy info.f._id with
  | some i =>
    if seen0.contains i then some (Except.ok ("any // Circular reference", seen0))
    else flattenBody res fl info (i :: seen0)
  | none => flattenBody res fl info seen0

/-- `generateFlattenedTypeDefinition`, with fuel for the unbounded
recursion through the resolver. -/
def flatten (res : TypeInfoResolver) : Nat → LocalizedTypeInfo → List String → FlatRes
  | 0 => fun _ _ => none
  | fuel + 1 => flattenF res (flatten res fuel)

/-! ## The tree-view localizer (`typeTreeViewLocalizer.ts`) -/

/-- `vscode.TreeItemCollapsibleState`, destructured in the source as
`None: NoChildren, Expanded, Collapsed`. -/
inductive TreeItemCollapsibleState : Type where
  | noChildren
  | expanded
  | collapsed
deriving DecidableEq

/-- `vscode.ThemeIcon`: an icon id with an optional theme-color id. -/
structure ThemeIcon where
  id : String
  color : Option String
deriving DecidableEq

/-- The `TypeTreeItemMeta` record produced by `getMeta`. -/
structure TypeTreeItemMeta where
  label : String
  description : Option String
  contextValue : Option String
  icon : Option ThemeIcon
  collapsibleState : TreeItemCollapsibleState
deriving DecidableEq

/-- Modelled from the spec: the host-editor configuration toggles
(`iconsEnabled`, `iconColorsEnabled`, `readonlyEnabled` from `../config`,
which is not among this repository's sources). -/
structure Config where
  iconsEnabled : Bool
  iconColorsEnabled : Bool
  readonlyEnabled : Bool

/-- `addDecorations` options (defaults mirror the destructuring defaults
`{ rest = false, optional = false, dimension = 0 }`). -/
structure Decorations where
  rest : Bool := false
  optional : Bool := false
  dimension : Nat := 0

/-- `addDecorations`: appends `[]` per array dimension, a trailing `?` for
optional entries and a leading `...` for rest entries. -/
def addDecorations (text : String) (d : Decorations) : String :=
  let t1 := text ++ String.join (List.replicate d.dimension "[]")
  let t2 := if d.optional then t1 ++ "?" else t1
  if d.rest then "..." ++ t2 else t2

/-- `getLabelByName`: the explicit `name` field wins when present
(`if (info.name !== undefined)` — presence, not truthiness). -/
def getLabelByName (info : LocalizedTypeInfo) : Option String :=
  info.f.name

/-- `getLabelByPurpose`: a truthy purpose is displayed as
`` `<${localizePurpose(info.purpose)}>` ``; `lp` stands for the external
`localizePurpose` helper of the api package. -/
def getLabelByPurpose (lp : String → String) (info : LocalizedTypeInfo) : Option String :=
  match jsTruthy info.f.purpose with
  | some p => some ("<" ++ lp p ++ ">")
  | none => none

/-- `getLabelOverride = getLabelByName ?? getLabelByPurpose` (the `??`
keeps an empty-string name). -/
def getLabelOverride (lp : String → String) (info : LocalizedTypeInfo) : Option String :=
  match getLabelByName info with
  | some s => some s
  | none => getLabelByPurpose lp info

/-- `getLabelBase`: the override, else the symbol name unless the symbol
is anonymous (an absent symbol behaves like a non-anonymous one with an
empty name). -/
def getLabelBase (lp : String → String) (info : LocalizedTypeInfo) : String :=
  match getLabelOverride lp info with
  | some s => s
  | none =>
    match info.f.symbol with
    | some sym => if sym.anonymous then "" else sym.name.getD ""
    | none => ""

/-- `getLabel`: a falsy (empty) base is returned as-is, otherwise the
optional/rest decorations are applied. -/
def getLabel (lp : String → String) (info : LocalizedTypeInfo) : String :=
  let base := getLabelBase lp info
  if base = "" then base
  else addDecorations base { optional := info.f.optional, rest := info.f.rest }

/-- `DescriptionParts` (`aliasName` models the source field `alias`). -/
structure DescriptionParts where
  aliasName : Option String := none
  base : Option String := none
  readonly : Bool := false

/-- `getDescriptionParts`: empty for a falsy `kindText`; otherwise the
dimension-decorated kind text as base, plus an alias taken from
`info.alias` or — when the label was overridden and the node is not the
jsx-properties bucket — the symbol name.  A falsy alias base yields no
alias (the source's `aliasDescriptionBase && decorate(...)` produces a
falsy value, which every consumer treats like an absent alias). -/
def getDescriptionParts (lp : String → String) (cfg : Config)
    (info : LocalizedTypeInfo) : DescriptionParts :=
  match jsTruthy info.f.kindText with
  | none => {}
  | some kt =>
    let decorate := fun (t : String) => addDecorations t { dimension := info.f.dimension.getD 0 }
    let baseDescription := decorate kt
    let nameOverridden := (jsTruthy (getLabelOverride lp info)).isSome
    let aliasDescriptionBase : Option String :=
      match info.f.aliasName with
      | some a => some a
      | none =>
        if nameOverridden ∧ info.f.purpose ≠ some "jsx_properties" then
          info.f.symbol.bind SymbolInfo.name
        else none
    let aliasDescription := (jsTruthy aliasDescriptionBase).map decorate
    { aliasName := aliasDescription
      base := some baseDescription
      readonly := info.f.readonly && cfg.readonlyEnabled }

/-- `descriptionPartsToString`: nothing without a truthy base; the alias
(when truthy) is prefixed as `alias (base)`; a readonly part prepends
`readonly `. -/
def descriptionPartsToString (p : DescriptionParts) : Option String :=
  match jsTruthy p.base with
  | none => none
  | some b =>
    let result :=
      match jsTruthy p.aliasName with
      | some a => a ++ " (" ++ b ++ ")"
      | none => b
    some (if p.readonly then "readonly " ++ result else result)

/-- `getDescription`. -/
def getDescription (lp : String → String) (cfg : Config)
    (info : LocalizedTypeInfo) : Option String :=
  descriptionPartsToString (getDescriptionParts lp cfg info)

/-- `getCollapsibleState` (closure over `info` and `depth` in the source):
no children (absent or empty) means not collapsible; the jsx-properties
bucket is always expanded; otherwise expanded exactly at depth 1. -/
def getCollapsibleState (info : LocalizedTypeInfo) (depth : Nat) : TreeItemCollapsibleState :=
  if (info.f.children.map List.length).getD 0 = 0 then .noChildren
  else if info.f.purpose = some "jsx_properties" then .expanded
  else if depth = 1 then .expanded
  else .collapsed

/-- `getContextValue`: `"declared"` exactly when the `locations` field is
present and non-empty. -/
def getContextValue (info : LocalizedTypeInfo) : Option String :=
  match info.f.locations with
  | some ls => if ls.length > 0 then some "declared" else none
  | none => none

/-- `_getIcon`: the icon id (with optional color id) for a node.  Member
symbols and call arguments win first, then the `class_constructor`
purpose, then the kind switch.  A `primitive` node whose `primitiveKind`
is not one of the handled keywords hits
`throw new Error("Unhandled primitive case")`, modelled as
`Except.error ()`; an unrecognized kind falls through the switch to the
trailing `return ["symbol-misc"]`. -/
def _getIcon (info : LocalizedTypeInfo) : Except Unit (String × Option String) :=
  if (info.f.symbol.map SymbolInfo.property).getD false then Except.ok ("symbol-field", none)
  else if (info.f.symbol.map SymbolInfo.isArgument).getD false then Except.ok ("symbol-property", none)
  else if info.f.purpose = some "class_constructor" then Except.ok ("symbol-constructor", none)
  else
    match info.f.kind with
    | "primitive" =>
      match info.f.primitiveKind with
      | some "essymbol" => Except.ok ("symbol-string", none)
      | some "unique_symbol" => Except.ok ("symbol-string", none)
      | some "string" => Except.ok ("symbol-string", none)
      | some "bigint" => Except.ok ("symbol-numeric", none)
      | some "number" => Except.ok ("symbol-numeric", none)
      | some "boolean" => Except.ok ("symbol-boolean", none)
      | some "unknown" => Except.ok ("symbol-null", none)
      | some "any" => Except.ok ("symbol-null", none)
      | some "void" => Except.ok ("symbol-null", none)
      | some "undefined" => Except.ok ("symbol-null", none)
      | some "null" => Except.ok ("symbol-null", none)
      | some "never" => Except.ok ("error", some "symbolIcon.nullForeground")
      | _ => Except.error ()
    | "object" => Except.ok ("symbol-object", none)
    | "type_parameter" => Except.ok ("symbol-type-parameter", none)
    | "string_mapping" => Except.ok ("symbol-text", none)
    | "template_literal" => Except.ok ("symbol-text", none)
    | "string_literal" => Except.ok ("symbol-text", none)
    | "bigint_literal" => Except.ok ("symbol-number", none)
    | "number_literal" => Except.ok ("symbol-number", none)
    | "boolean_literal" => Except.ok ("symbol-boolean", none)
    | "enum" => Except.ok ("symbol-enum", none)
    | "enum_literal" => Except.ok ("symbol-enum-member", none)
    | "tuple" => Except.ok ("symbol-array", none)
    | "array" => Except.ok ("symbol-array", none)
    | "intrinsic" => Except.ok ("symbol-keyword", none)
    | "conditional" => Except.ok ("question", some "symbolIcon.keywordForeground")
    | "substitution" => Except.ok ("symbol-misc", none)
    | "non_primitive" => Except.ok ("symbol-misc", none)
    | "union" => Except.ok ("symbol-struct", none)
    | "intersection" => Except.ok ("symbol-struct", none)
    | "signature" =>
      if (info.f.symbol.map SymbolInfo.insideClassOrInterface).getD false then
        Except.ok ("symbol-method", none)
      else Except.ok ("symbol-function", none)
    | "function" =>
      if (info.f.symbol.map SymbolInfo.insideClassOrInterface).getD false then
        Except.ok ("symbol-method", none)
      else Except.ok ("symbol-function", none)
    | "interface" => Except.ok ("symbol-interface", none)
    | "namespace" => Except.ok ("symbol-namespace", none)
    | "module" => Except.ok ("symbol-module", none)
    | "class" => Except.ok ("symbol-class", none)
    | "index_info" => Except.ok ("key", some "symbolIcon.keyForeground")
    | "indexed_access" => Except.ok ("key", some "symbolIcon.keyForeground")
    | "index" => Except.ok ("key", some "symbolIcon.keyForeground")
    | _ => Except.ok ("symbol-misc", none)

/-- `getIcon`: nothing when icons are disabled; otherwise the `_getIcon`
pair is turned into a `ThemeIcon`.  Both array destructurings in the
source (`const [id] = iconIds; let [colorId] = iconIds`) read element 0,
so the color id starts out equal to the icon id; with icon colors
disabled it is replaced by `icon.foreground`.  `_getIcon` always returns
a non-empty array or throws, so the `!iconIds`/`!colorId` fallbacks of
the source are unreachable and the colored constructor is always used. -/
def getIcon (cfg : Config) (info : LocalizedTypeInfo) : Except Unit (Option ThemeIcon) :=
  if cfg.iconsEnabled = false then Except.ok none
  else
    match _getIcon info with
    | Except.error e => Except.error e
    | Except.ok iconIds =>
      let id := iconIds.fst
      let colorId := if cfg.iconColorsEnabled = false then "icon.foreground" else iconIds.fst
      Except.ok (some { id := id, color := some colorId })

/-- `getMeta`: assembles the tree-item metadata; the only throwing
component is `getIcon`, whose exception escapes `getMeta`. -/
def getMeta (lp : String → String) (cfg : Config) (info : LocalizedTypeInfo)
    (depth : Nat) : Except Unit TypeTreeItemMeta :=
  let label := getLabel lp info
  let description := getDescription lp cfg info
  let collapsibleState := getCollapsibleState info depth
  match getIcon cfg info with
  | Except.error e => Except.error e
  | Except.ok icon =>
    Except.ok
      { label := label
        description := description
        contextValue := getContextValue info
        icon := icon
        collapsibleState := collapsibleState }

/-! ## Auxiliary definitions for the statements -/

/-- The text a *leaf* node flattens to: a node whose branch in
`generateFlattenedTypeDefinition` neither recurses nor consults the
resolver nor can throw.  `none` for the recursive kinds (a guarded
`reference`, `object`, `array`, `tuple`, `union`, `intersection`) and for
a number/boolean literal without a value (whose branch throws).  The
chain mirrors the source's guard order. -/
def leafEval (info : LocalizedTypeInfo) : Option String :=
  if info.f.kind = "reference" ∧ info.f.location.isSome = true then none
  else if info.f.kind = "primitive" then some (info.f.primitiveKind.getD "any")
  else if info.f.kind = "object" then none
  else if info.f.kind = "array" then none
  else if info.f.kind = "tuple" then none
  else if info.f.kind = "union" then none
  else if info.f.kind = "intersection" then none
  else if info.f.kind = "string_literal" then some ("\"" ++ info.f.value.getD "undefined" ++ "\"")
  else if info.f.kind = "number_literal" then info.f.value
  else if info.f.kind = "boolean_literal" then info.f.value
  else some "any"

/-- The texts produced for a children list all of whose non-error members
are id-less leaves: error markers flatten to `any`, a leaf to its
`leafEval` text.  `none` when some child is not such a leaf. -/
def flatLeavesSpec : List (Except Unit LocalizedTypeInfo) → Option (List String)
  | [] => some []
  | Except.error _ :: rest => (flatLeavesSpec rest).map (fun ts => "any" :: ts)
  | Except.ok n :: rest =>
    match jsTruthy n.f._id, leafEval n with
    | none, some t => (flatLeavesSpec rest).map (fun ts => t :: ts)
    | _, _ => none

/-- The `name?: Type` entries produced by the `object` branch for a
children list all of whose non-error members are id-less leaves: an
error marker contributes a skipped (`none`) slot, a leaf its property
entry. -/
def objectPropsSpec : List (Except Unit LocalizedTypeInfo) → Option (List (Option String))
  | [] => some []
  | Except.error _ :: rest => (objectPropsSpec rest).map (fun ps => none :: ps)
  | Except.ok n :: rest =>
    match jsTruthy n.f._id, leafEval n with
    | none, some t => (objectPropsSpec rest).map (fun ps => some (mkProperty n t) :: ps)
    | _, _ => none

/-- Number of occurrences of `pat` in `s` (counted at every start
position, so overlapping occurrences all count). -/
def sentinelCount (pat s : String) : Nat :=
  (List.range s.data.length).countP (fun p => pat.data.isPrefixOf (s.data.drop p))

/-- The flattener kinds with a dedicated branch. -/
def handledKinds : List String :=
  ["reference", "primitive", "object", "array", "tuple", "union",
   "intersection", "string_literal", "number_literal", "boolean_literal"]

/-- The primitive kinds with a case in `_getIcon`'s inner switch. -/
def handledPrimitiveKinds : List (Option String) :=
  [some "essymbol", some "unique_symbol", some "string", some "bigint",
   some "number", some "boolean", some "unknown", some "any", some "void",
   some "undefined", some "null", some "never"]

/-- The kinds with a case in `_getIcon`'s kind switch. -/
def iconSwitchKinds : List String :=
  ["primitive", "object", "type_parameter", "string_mapping",
   "template_literal", "string_literal", "bigint_literal", "number_literal",
   "boolean_literal", "enum", "enum_literal", "tuple", "array", "intrinsic",
   "conditional", "substitution", "non_primitive", "union", "intersection",
   "signature", "function", "interface", "namespace", "module", "class",
   "index_info", "indexed_access", "index"]

/-! ## Concrete instances used by witnesses and counterexamples -/

/-- Identity stand-in for the external `localizePurpose`. -/
def lpId : String → String := fun s => s

/-- All view toggles off. -/
def cfgOff : Config := ⟨false, false, false⟩

/-- All view toggles on. -/
def cfgOn : Config := ⟨true, true, true⟩

/-- Property `a: string` of the worked example. -/
def strNode : LocalizedTypeInfo :=
  .node { kind := "primitive", primitiveKind := some "string", symbol := some { name := some "a" } }

/-- Property `b?: number` of the worked example. -/
def numNode : LocalizedTypeInfo :=
  .node { kind := "primitive", primitiveKind := some "number",
          symbol := some { name := some "b" }, optional := true }

/-- Resolver whose every node has the two children `a: string` and
`b?: number`. -/
def resAB : TypeInfoResolver := ⟨fun _ => [Except.ok strNode, Except.ok numNode], fun _ => none⟩

/-- A bare object node. -/
def objNode : LocalizedTypeInfo := .node { kind := "object" }

/-- A bare tuple node. -/
def tupNode : LocalizedTypeInfo := .node { kind := "tuple" }

/-- A bare union node. -/
def uniNode : LocalizedTypeInfo := .node { kind := "union" }

/-- A bare intersection node. -/
def interNode : LocalizedTypeInfo := .node { kind := "intersection" }

/-- The string literal `"x"`. -/
def litX : LocalizedTypeInfo := .node { kind := "string_literal", value := some "x" }

/-- The string literal `"y"`. -/
def litY : LocalizedTypeInfo := .node { kind := "string_literal", value := some "y" }

/-- The number literal `5`. -/
def numLit5 : LocalizedTypeInfo := .node { kind := "number_literal", value := some "5" }

/-- The boolean literal `true`. -/
def boolLitT : LocalizedTypeInfo := .node { kind := "boolean_literal", value := some "true" }

/-- Resolver whose every node has the two literal children `"x"`, `"y"`. -/
def resXY : TypeInfoResolver := ⟨fun _ => [Except.ok litX, Except.ok litY], fun _ => none⟩

/-- Resolver that localizes every child to an error marker. -/
def resErrOnly : TypeInfoResolver := ⟨fun _ => [Except.error ()], fun _ => none⟩

/-- A number literal carrying no value (`info.value.toString()` throws on
it). -/
def badNumNode : LocalizedTypeInfo := .node { kind := "number_literal" }

/-- Resolver whose every node has the value-less number literal as its
only child. -/
def resBadNum : TypeInfoResolver := ⟨fun _ => [Except.ok badNumNode], fun _ => none⟩

/-- A self-referential object node (id `c`). -/
def cycNode : LocalizedTypeInfo := .node { _id := some "c", kind := "object" }

/-- Resolver under which `cycNode` is its own only child. -/
def resCyc : TypeInfoResolver := ⟨fun _ => [Except.ok cycNode], fun _ => none⟩

/-- A reference node with a `locations` list but no singular `location`
property. -/
def refBare : LocalizedTypeInfo := .node { kind := "reference", locations := some [0] }

/-- A reference node with both the singular `location` property and a
`locations` list. -/
def refLoc : LocalizedTypeInfo := .node { kind := "reference", location := some 0, locations := some [0] }

/-- Resolver that resolves every location to the `string` primitive. -/
def resToStr : TypeInfoResolver := ⟨fun _ => [], fun _ => some strNode⟩

/-- Resolver with no children and no resolvable locations. -/
def resNoRef : TypeInfoResolver := ⟨fun _ => [], fun _ => none⟩

/-- A node of an unhandled flattener kind. -/
def mysteryNode : LocalizedTypeInfo := .node { kind := "interface" }

/-- A node whose id is already visited in the C4 witness. -/
def idANode : LocalizedTypeInfo := .node { _id := some "a", kind := "object" }

/-- A node of a kind unknown to the icon switch. -/
def plainMisc : LocalizedTypeInfo := .node { kind := "mystery" }

/-- A primitive node without a `primitiveKind`. -/
def primBadNode : LocalizedTypeInfo := .node { kind := "primitive" }

/-- A node carrying one source location. -/
def locNode : LocalizedTypeInfo := .node { kind := "mystery", locations := some [0] }

/-- The metadata `getMeta` produces for `locNode` (toggles off, depth 1). -/
def mLoc : TypeTreeItemMeta :=
  { label := "", description := none, contextValue := some "declared",
    icon := none, collapsibleState := .noChildren }

/-- A jsx-properties node with one child. -/
def jsxNode : LocalizedTypeInfo :=
  .node { kind := "object", purpose := some "jsx_properties", children := some [locNode] }

/-- The metadata `getMeta` produces for `jsxNode` (toggles off, depth 7). -/
def mJsx : TypeTreeItemMeta :=
  { label := "<jsx_properties>", description := none, contextValue := none,
    icon := none, collapsibleState := .expanded }

/-! ## Helper lemmas -/

/-- Unfolding lemma for one fuel step of the flattener. -/
theorem flatten_succ (res : TypeInfoResolver) (fuel : Nat) (info : LocalizedTypeInfo)
    (seen : List String) :
    flatten res (fuel + 1) info seen = flattenF res (flatten res fuel) info seen := rfl

set_option maxHeartbeats 2000000 in
/-- The kind dispatch on a leaf node yields its `leafEval` text without
touching the visited-set. -/
theorem flattenBody_leaf (res : TypeInfoResolver)
    (fl : LocalizedTypeInfo → List String → FlatRes) (n : LocalizedTypeInfo)
    (t : String) (hleaf : leafEval n = some t) (seen : List String) :
    flattenBody res fl n seen = some (Except.ok (t, seen)) := by
  unfold leafEval at hleaf
  split_ifs at hleaf with h1 h2 h3 h4 h5 h6 h7 h8 h9 h10
  · unfold flattenBody
    rw [if_neg h1, if_pos h2]
    injection hleaf with h
    rw [h]
  · unfold flattenBody
    rw [if_neg h1, if_neg h2, if_neg h3, if_neg h4, if_neg h5, if_neg h6, if_neg h7, if_pos h8]
    injection hleaf with h
    rw [h]
  · unfold flattenBody
    rw [if_neg h1, if_neg h2, if_neg h3, if_neg h4, if_neg h5, if_neg h6, if_neg h7, if_neg h8,
      if_pos h9, hleaf]
  · unfold flattenBody
    rw [if_neg h1, if_neg h2, if_neg h3, if_neg h4, if_neg h5, if_neg h6, if_neg h7, if_neg h8,
      if_neg h9, if_pos h10, hleaf]
  · unfold flattenBody
    rw [if_neg h1, if_neg h2, if_neg h3, if_neg h4, if_neg h5, if_neg h6, if_neg h7, if_neg h8,
      if_neg h9, if_neg h10]
    injection hleaf with h
    rw [h]

/-- A leaf node with an absent (or falsy) id flattens to its `leafEval`
text, at any fuel, leaving the visited-set unchanged. -/
theorem leafFlat (res : TypeInfoResolver) (n : LocalizedTypeInfo) (t : String)
    (hid : jsTruthy n.f._id = none) (hleaf : leafEval n = some t) :
    ∀ fuel seen, flatten res (fuel + 1) n seen = some (Except.ok (t, seen)) := by
  intro fuel seen
  rw [flatten_succ]
  unfold flattenF
  rw [hid]
  exact flattenBody_leaf res (flatten res fuel) n t hleaf seen


/-- A children list of id-less leaves (and error markers) is flattened by
`flattenSeq` to exactly the `flatLeavesSpec` texts, leaving the
visited-set unchanged. -/
theorem flattenSeq_leaves (res : TypeInfoResolver) (fuel : Nat)
    (cs : List (Except Unit LocalizedTypeInfo)) (ts : List String)
    (h : flatLeavesSpec cs = some ts) :
    ∀ seen, flattenSeq (flatten res (fuel + 1)) cs seen = some (Except.ok (ts, seen)) := by
  induction cs generalizing ts with
  | nil =>
    intro seen
    unfold flatLeavesSpec at h
    injection h with h
    rw [← h]
    rfl
  | cons c rest ih =>
    intro seen
    cases c with
    | error e =>
      unfold flatLeavesSpec at h
      rw [Option.map_eq_some'] at h
      obtain ⟨ts', hts', rfl⟩ := h
      unfold flattenSeq
      rw [ih ts' hts' seen]
    | ok n =>
      unfold flatLeavesSpec at h
      rcases hid : jsTruthy n.f._id with _ | i
      · rcases hlf : leafEval n with _ | t
        · rw [hid, hlf] at h; cases h
        · rw [hid, hlf] at h
          rw [Option.map_eq_some'] at h
          obtain ⟨ts', hts', rfl⟩ := h
          unfold flattenSeq
          rw [leafFlat res n t hid hlf fuel seen]
          simp only [ih ts' hts']
      · rw [hid] at h; cases h

/-- A children list of id-less leaves (and error markers) is turned by the
`object` branch's `objectProps` into exactly the non-skipped
`objectPropsSpec` entries, leaving the visited-set unchanged. -/
theorem objectProps_leaves (res : TypeInfoResolver) (fuel : Nat)
    (cs : List (Except Unit LocalizedTypeInfo)) (ps : List (Option String))
    (h : objectPropsSpec cs = some ps) :
    ∀ seen, objectProps (flatten res (fuel + 1)) cs seen =
      some (Except.ok (ps.reduceOption, seen)) := by
  induction cs generalizing ps with
  | nil =>
    intro seen
    unfold objectPropsSpec at h
    injection h with h
    rw [← h]
    rfl
  | cons c rest ih =>
    intro seen
    cases c with
    | error e =>
      unfold objectPropsSpec at h
      rw [Option.map_eq_some'] at h
      obtain ⟨ps', hps', rfl⟩ := h
      unfold objectProps
      rw [ih ps' hps' seen, List.reduceOption_cons_of_none]
    | ok n =>
      unfold objectPropsSpec at h
      rcases hid : jsTruthy n.f._id with _ | i
      · rcases hlf : leafEval n with _ | t
        · rw [hid, hlf] at h; cases h
        · rw [hid, hlf] at h
          rw [Option.map_eq_some'] at h
          obtain ⟨ps', hps', rfl⟩ := h
          unfold objectProps
          rw [leafFlat res n t hid hlf fuel seen]
          simp only [ih ps' hps']
          rw [List.reduceOption_cons_of_some]
      · rw [hid] at h; cases h

/-! ## Claim theorems: the flattener -/

/-- C4 (confirmed): within one flatten invocation, a node whose (truthy)
identifier is already in the visited-set flattens to
`any // Circular reference`, with no recursion (the result does not
involve the resolver or the fuel) and the visited-set unchanged. -/
theorem claim4_circular_guard (res : TypeInfoResolver) (fuel : Nat)
    (info : LocalizedTypeInfo) (seen : List String) (i : String)
    (hid : jsTruthy info.f._id = some i) (hseen : seen.contains i = true) :
    flatten res (fuel + 1) info seen = some (Except.ok ("any // Circular reference", seen)) := by
  rw [flatten_succ]
  unfold flattenF
  rw [hid]
  simp [hseen]
  exact fun h => absurd (by simpa using hseen) h

/-- C4 witness: a node with id `a` encountered while `a` is already
visited. -/
theorem claim4_circular_guard_witness :
    flatten resNoRef 1 idANode ["a"] = some (Except.ok ("any // Circular reference", ["a"])) :=
  claim4_circular_guard resNoRef 0 idANode ["a"] "a" rfl rfl

/-- C2 (amended): a reference node whose singular `location` property is
present (the guard the code actually checks) and whose `locations` list is
present resolves through `locations[0]`: on success flatten recurses into
the resolved node, on failure it yields `any // Failed to resolve
reference` instead of failing. -/
theorem claim2_reference_resolution (res : TypeInfoResolver) (fuel : Nat)
    (info : LocalizedTypeInfo) (seen : List String) (ls : List Nat)
    (hk : info.f.kind = "reference") (hloc : info.f.location.isSome = true)
    (hid : jsTruthy info.f._id = none) (hls : info.f.locations = some ls) :
    flatten res (fuel + 1) info seen =
      match res.resolveAtLocation ls.head? with
      | some r => flatten res fuel r seen
      | none => some (Except.ok ("any // Failed to resolve reference", seen)) := by
  rw [flatten_succ]
  unfold flattenF
  rw [hid]
  unfold flattenBody
  rw [if_pos ⟨hk, hloc⟩, hls]

/-- C2 witness: an unresolvable reference (the resolver yields nothing)
flattens to the failure comment rather than failing. -/
theorem claim2_reference_resolution_witness :
    flatten resNoRef 1 refLoc [] = some (Except.ok ("any // Failed to resolve reference", [])) :=
  claim2_reference_resolution resNoRef 0 refLoc [] [0] rfl rfl rfl rfl

/-- C2 counterexample: a reference node without the singular `location`
property is never resolved — even under a resolver that could resolve it
to `string` — and flattens to plain `any`, not to the claimed
resolution/failure-comment behavior. -/
theorem claim2_reference_resolution_cex :
    flatten resToStr 1 refBare [] = some (Except.ok ("any", []))
    ∧ "any" ≠ "any // Failed to resolve reference" ∧ "any" ≠ "string" :=
  ⟨rfl, by decide, by decide⟩

/-- C3 (amended): flatten is total over kinds — a node of any kind without
a dedicated branch yields `any`. -/
theorem claim3_unhandled_any (res : TypeInfoResolver) (fuel : Nat)
    (info : LocalizedTypeInfo) (seen : List String)
    (hk : info.f.kind ∉ handledKinds) (hid : jsTruthy info.f._id = none) :
    flatten res (fuel + 1) info seen = some (Except.ok ("any", seen)) := by
  simp only [handledKinds, List.mem_cons, List.not_mem_nil, or_false, not_or] at hk
  obtain ⟨h1, h2, h3, h4, h5, h6, h7, h8, h9, h10⟩ := hk
  rw [flatten_succ]
  unfold flattenF
  rw [hid]
  unfold flattenBody
  rw [if_neg (fun hc => h1 hc.1), if_neg h2, if_neg h3, if_neg h4, if_neg h5, if_neg h6,
    if_neg h7, if_neg h8, if_neg h9, if_neg h10]

/-- C3 witness: an `interface`-kind node (no flattener branch) yields
`any`. -/
theorem claim3_unhandled_any_witness :
    flatten resNoRef 1 mysteryNode [] = some (Except.ok ("any", [])) :=
  claim3_unhandled_any resNoRef 0 mysteryNode [] (by decide) rfl

/-- C3 counterexample: a nested failure that does not degrade — an object
whose only child is a number literal without a value makes the whole
flatten call throw (`info.value.toString()` on `undefined`), so the
top-level operation fails even though the root resolution succeeded. -/
theorem claim3_nested_throw_cex :
    flatten resBadNum 2 objNode [] = some (Except.error ()) := rfl

/-- C7 (confirmed): leaf emission — a primitive node yields its
`primitiveKind` keyword (or `any` when absent); a string literal yields
its value wrapped in double quotes; number and boolean literals yield
their textual value unquoted. -/
theorem claim7_leaf_kinds (res : TypeInfoResolver) (fuel : Nat) (seen : List String)
    (info : LocalizedTypeInfo) (hid : jsTruthy info.f._id = none) :
    (info.f.kind = "primitive" →
      flatten res (fuel + 1) info seen =
        some (Except.ok (info.f.primitiveKind.getD "any", seen)))
    ∧ (∀ v, info.f.kind = "string_literal" → info.f.value = some v →
      flatten res (fuel + 1) info seen = some (Except.ok ("\"" ++ v ++ "\"", seen)))
    ∧ (∀ v, info.f.kind = "number_literal" → info.f.value = some v →
      flatten res (fuel + 1) info seen = some (Except.ok (v, seen)))
    ∧ (∀ v, info.f.kind = "boolean_literal" → info.f.value = some v →
      flatten res (fuel + 1) info seen = some (Except.ok (v, seen))) := by
  refine ⟨fun hk => ?_, fun v hk hv => ?_, fun v hk hv => ?_, fun v hk hv => ?_⟩
  · exact leafFlat res info _ hid (by simp [leafEval, hk]) fuel seen
  · exact leafFlat res info _ hid (by simp [leafEval, hk, hv]) fuel seen
  · exact leafFlat res info _ hid (by simp [leafEval, hk, hv]) fuel seen
  · exact leafFlat res info _ hid (by simp [leafEval, hk, hv]) fuel seen

/-- C7 witness: `string` primitive, `"x"`, `5`, `true`. -/
theorem claim7_leaf_kinds_witness :
    flatten resNoRef 1 strNode [] = some (Except.ok ("string", []))
    ∧ flatten resNoRef 1 litX [] = some (Except.ok ("\"x\"", []))
    ∧ flatten resNoRef 1 numLit5 [] = some (Except.ok ("5", []))
    ∧ flatten resNoRef 1 boolLitT [] = some (Except.ok ("true", [])) :=
  ⟨(claim7_leaf_kinds resNoRef 0 [] strNode rfl).1 rfl,
   (claim7_leaf_kinds resNoRef 0 [] litX rfl).2.1 "x" rfl rfl,
   (claim7_leaf_kinds resNoRef 0 [] numLit5 rfl).2.2.1 "5" rfl rfl,
   (claim7_leaf_kinds resNoRef 0 [] boolLitT rfl).2.2.2 "true" rfl rfl⟩


/-- C1 (amended): an object node flattens to `{}` when the localized
children list is empty, and otherwise to a single brace pair containing
one `name?: Type` entry per non-error child (`?` present exactly when the
child is optional), the entries joined by `; ` in the children's order,
error children skipped — so a children list that is non-empty but all
errors yields `{  }`, not `{}`.  Stated for children that are id-less
leaves. -/
theorem claim1_object_flatten (res : TypeInfoResolver) (fuel : Nat)
    (info : LocalizedTypeInfo) (seen : List String) (ps : List (Option String))
    (hk : info.f.kind = "object") (hid : jsTruthy info.f._id = none)
    (hps : objectPropsSpec (res.localizeChildren info) = some ps) :
    (res.localizeChildren info = [] →
      flatten res (fuel + 2) info seen = some (Except.ok ("{}", seen)))
    ∧ (res.localizeChildren info ≠ [] →
      flatten res (fuel + 2) info seen =
        some (Except.ok ("\x7b " ++ String.intercalate "; " ps.reduceOption ++ " \x7d", seen))) := by
  have e : flatten res (fuel + 2) info seen = flattenF res (flatten res (fuel + 1)) info seen := rfl
  constructor
  · intro hnil
    rw [e]
    unfold flattenF
    rw [hid]
    unfold flattenBody
    rw [if_neg (fun hc => absurd (hk.symm.trans hc.1) (by decide)),
      if_neg (fun hc => absurd (hk.symm.trans hc) (by decide)), if_pos hk, hnil]
  · intro hne
    rcases hcs : res.localizeChildren info with _ | ⟨c, rest⟩
    · exact absurd hcs hne
    · rw [e]
      unfold flattenF
      rw [hid]
      unfold flattenBody
      rw [if_neg (fun hc => absurd (hk.symm.trans hc.1) (by decide)),
        if_neg (fun hc => absurd (hk.symm.trans hc) (by decide)), if_pos hk, hcs]
      have hop := objectProps_leaves res fuel (c :: rest) ps (hcs ▸ hps)
      simp only [hop]

/-- C1 witness: the worked example — an object with children `a: string`
and `b?: number` flattens to exactly `{ a: string; b?: number }`. -/
theorem claim1_object_flatten_witness :
    flatten resAB 2 objNode [] = some (Except.ok ("{ a: string; b?: number }", [])) :=
  (claim1_object_flatten resAB 0 objNode [] [some "a: string", some "b?: number"]
    rfl rfl rfl).2 (fun h => List.noConfusion h)

/-- C1 counterexample: an object node whose children list is non-empty
but consists of one error marker flattens to `{  }`, not to the `{}`
required for a node with no localizable children. -/
theorem claim1_object_flatten_cex :
    flatten resErrOnly 1 objNode [] = some (Except.ok ("{  }", [])) ∧ "{  }" ≠ "{}" :=
  ⟨rfl, by decide⟩

/-- C6 (confirmed): a tuple node flattens to `[T1, T2, ...]` with one
comma-joined entry per child in order, independent of any optionality
markers; union children are joined with ` | `, intersection children with
` & `.  Stated for children that are id-less leaves or error markers. -/
theorem claim6_tuple_union_intersection (res : TypeInfoResolver) (fuel : Nat)
    (seen : List String) :
    (∀ info ts, info.f.kind = "tuple" → jsTruthy info.f._id = none →
      flatLeavesSpec (res.localizeChildren info) = some ts →
      flatten res (fuel + 2) info seen =
        some (Except.ok ("[" ++ String.intercalate ", " ts ++ "]", seen)))
    ∧ (∀ info ts, info.f.kind = "union" → jsTruthy info.f._id = none →
      flatLeavesSpec (res.localizeChildren info) = some ts →
      flatten res (fuel + 2) info seen =
        some (Except.ok (String.intercalate " | " ts, seen)))
    ∧ (∀ info ts, info.f.kind = "intersection" → jsTruthy info.f._id = none →
      flatLeavesSpec (res.localizeChildren info) = some ts →
      flatten res (fuel + 2) info seen =
        some (Except.ok (String.intercalate " & " ts, seen))) := by
  refine ⟨fun info ts hk hid hts => ?_, fun info ts hk hid hts => ?_,
    fun info ts hk hid hts => ?_⟩
  all_goals
    have e : flatten res (fuel + 2) info seen = flattenF res (flatten res (fuel + 1)) info seen := rfl
    rw [e]
    unfold flattenF
    rw [hid]
    unfold flattenBody
    have hsq := flattenSeq_leaves res fuel (res.localizeChildren info) ts hts
  · rw [if_neg (fun hc => absurd (hk.symm.trans hc.1) (by decide)),
      if_neg (fun hc => absurd (hk.symm.trans hc) (by decide)),
      if_neg (fun hc => absurd (hk.symm.trans hc) (by decide)),
      if_neg (fun hc => absurd (hk.symm.trans hc) (by decide)), if_pos hk]
    simp only [hsq]
  · rw [if_neg (fun hc => absurd (hk.symm.trans hc.1) (by decide)),
      if_neg (fun hc => absurd (hk.symm.trans hc) (by decide)),
      if_neg (fun hc => absurd (hk.symm.trans hc) (by decide)),
      if_neg (fun hc => absurd (hk.symm.trans hc) (by decide)),
      if_neg (fun hc => absurd (hk.symm.trans hc) (by decide)), if_pos hk]
    simp only [hsq]
  · rw [if_neg (fun hc => absurd (hk.symm.trans hc.1) (by decide)),
      if_neg (fun hc => absurd (hk.symm.trans hc) (by decide)),
      if_neg (fun hc => absurd (hk.symm.trans hc) (by decide)),
      if_neg (fun hc => absurd (hk.symm.trans hc) (by decide)),
      if_neg (fun hc => absurd (hk.symm.trans hc) (by decide)),
      if_neg (fun hc => absurd (hk.symm.trans hc) (by decide)), if_pos hk]
    simp only [hsq]

/-- C6 witness: `[string, number]`, `"x" | "y"`, `"x" & "y"`. -/
theorem claim6_tuple_union_intersection_witness :
    flatten resAB 2 tupNode [] = some (Except.ok ("[string, number]", []))
    ∧ flatten resXY 2 uniNode [] = some (Except.ok ("\"x\" | \"y\"", []))
    ∧ flatten resXY 2 interNode [] = some (Except.ok ("\"x\" & \"y\"", [])) :=
  ⟨(claim6_tuple_union_intersection resAB 0 []).1 tupNode ["string", "number"] rfl rfl rfl,
   (claim6_tuple_union_intersection resXY 0 []).2.1 uniNode ["\"x\"", "\"y\""] rfl rfl rfl,
   (claim6_tuple_union_intersection resXY 0 []).2.2 interNode ["\"x\"", "\"y\""] rfl rfl rfl⟩

/-- C5 (confirmed): a self-referential object node (its own only child,
carrying a truthy id) terminates by the visited-set at any sufficient
fuel, producing exactly one circular-reference sentinel, placed at the
recursion point (the property type slot). -/
theorem claim5_self_reference (res : TypeInfoResolver) (fuel : Nat)
    (info : LocalizedTypeInfo) (i : String)
    (hid : jsTruthy info.f._id = some i) (hk : info.f.kind = "object")
    (hch : res.localizeChildren info = [Except.ok info])
    (hsym : info.f.symbol = none) (hopt : info.f.optional = false) :
    flatten res (fuel + 2) info [] =
      some (Except.ok ("{ unknown: any // Circular reference }", [i]))
    ∧ sentinelCount "any // Circular reference" "{ unknown: any // Circular reference }" = 1 := by
  refine ⟨?_, by rfl⟩
  have e : flatten res (fuel + 2) info [] = flattenF res (flatten res (fuel + 1)) info [] := rfl
  rw [e]
  unfold flattenF
  rw [hid]
  show flattenBody res (flatten res (fuel + 1)) info [i] =
    some (Except.ok ("{ unknown: any // Circular reference }", [i]))
  unfold flattenBody
  rw [if_neg (fun hc => absurd (hk.symm.trans hc.1) (by decide)),
    if_neg (fun hc => absurd (hk.symm.trans hc) (by decide)), if_pos hk, hch]
  have einner : flatten res (fuel + 1) info [i] =
      some (Except.ok ("any // Circular reference", [i])) := by
    rw [flatten_succ]
    unfold flattenF
    rw [hid]
    simp
  simp only [objectProps, einner, mkProperty, hsym, hopt]
  rfl

/-- C5 witness: the concrete cyclic node `cycNode` under the resolver that
makes it its own only child. -/
theorem claim5_self_reference_witness :
    flatten resCyc 2 cycNode [] =
      some (Except.ok ("{ unknown: any // Circular reference }", ["c"]))
    ∧ sentinelCount "any // Circular reference" "{ unknown: any // Circular reference }" = 1 :=
  claim5_self_reference resCyc 0 cycNode "c" rfl rfl rfl rfl rfl

/-! ## Claim theorems: the localizer -/

/-- C8 (amended): the kind classification of the icon mapping is total —
every primitive node whose `primitiveKind` is one of the handled keywords
gets an icon, and a node of an unrecognized kind (guards off) falls to the
safe default `symbol-misc` bucket instead of failing; however (see the
counterexample) a primitive node with an unrecognized or absent
`primitiveKind` throws. -/
theorem claim8_icon_total :
    (∀ info : LocalizedTypeInfo,
      (info.f.kind = "primitive" → info.f.primitiveKind ∈ handledPrimitiveKinds) →
      (_getIcon info).isOk = true)
    ∧ (∀ info : LocalizedTypeInfo,
      (info.f.symbol.map SymbolInfo.property).getD false = false →
      (info.f.symbol.map SymbolInfo.isArgument).getD false = false →
      info.f.purpose ≠ some "class_constructor" →
      info.f.kind ∉ iconSwitchKinds →
      _getIcon info = Except.ok ("symbol-misc", none)) := by
  constructor
  · intro info hprim
    unfold _getIcon
    split_ifs with hg1 hg2 hg3 hg4
    · rfl
    · rfl
    · rfl
    · by_cases hk : info.f.kind = "primitive"
      · have hm := hprim hk
        simp only [handledPrimitiveKinds, List.mem_cons, List.not_mem_nil, or_false] at hm
        rw [hk]
        rcases hm with h | h | h | h | h | h | h | h | h | h | h | h <;> (rw [h]; rfl)
      · split <;> first | rfl | simp_all
    · by_cases hk : info.f.kind = "primitive"
      · have hm := hprim hk
        simp only [handledPrimitiveKinds, List.mem_cons, List.not_mem_nil, or_false] at hm
        rw [hk]
        rcases hm with h | h | h | h | h | h | h | h | h | h | h | h <;> (rw [h]; rfl)
      · split <;> first | rfl | simp_all
  · intro info hg1 hg2 hg3 hk
    simp only [iconSwitchKinds, List.mem_cons, List.not_mem_nil, or_false, not_or] at hk
    unfold _getIcon
    rw [if_neg (by simp [hg1]), if_neg (by simp [hg2]), if_neg hg3]
    obtain ⟨k1, k2, k3, k4, k5, k6, k7, k8, k9, k10, k11, k12, k13, k14, k15, k16, k17,
      k18, k19, k20, k21, k22, k23, k24, k25, k26, k27, k28⟩ := hk
    split <;> first | rfl | contradiction

/-- C8 witness: a node of the unrecognized kind `mystery` gets the
`symbol-misc` default icon and the mapping does not fail on it. -/
theorem claim8_icon_total_witness :
    (_getIcon plainMisc).isOk = true ∧ _getIcon plainMisc = Except.ok ("symbol-misc", none) :=
  ⟨claim8_icon_total.1 plainMisc (by decide),
   claim8_icon_total.2 plainMisc rfl rfl (by decide) (by decide)⟩

/-- C8 counterexample: `getMeta` (icons enabled) throws on a primitive
node without a `primitiveKind` — the icon mapping is not total over the
kind-specific metadata. -/
theorem claim8_icon_total_cex :
    getMeta lpId cfgOn primBadNode 1 = Except.error () := rfl

/-- C9 (confirmed): whenever `getMeta` returns, its context tag is
`declared` exactly when the node's `locations` field is present and
contains at least one source-declaration reference. -/
theorem claim9_declared_context (lp : String → String) (cfg : Config)
    (info : LocalizedTypeInfo) (depth : Nat) (m : TypeTreeItemMeta)
    (h : getMeta lp cfg info depth = Except.ok m) :
    (m.contextValue = some "declared" ↔
      ∃ ls, info.f.locations = some ls ∧ 0 < ls.length) := by
  unfold getMeta at h
  rcases hi : getIcon cfg info with e | icon
  · rw [hi] at h; cases h
  · rw [hi] at h
    injection h with h
    rw [← h]
    unfold getContextValue
    rcases hl : info.f.locations with _ | ls
    · simp
    · by_cases h0 : ls.length > 0
      · simp [h0]
      · simp only [if_neg h0]
        constructor
        · intro hc; cases hc
        · rintro ⟨ls', hls', hlen⟩
          injection hls' with hls'
          rw [← hls'] at hlen
          exact absurd hlen h0

/-- C9 witness: a node with one source location is tagged `declared`. -/
theorem claim9_declared_context_witness : mLoc.contextValue = some "declared" :=
  (claim9_declared_context lpId cfgOff locNode 1 mLoc rfl).mpr ⟨[0], rfl, by decide⟩

/-- C10 (confirmed): whenever `getMeta` returns, the collapsible state is
`noChildren` exactly when the node has no children (absent or empty
list); a node with children and the `jsx_properties` purpose is expanded
at every depth; any other node with children is expanded exactly at depth
1 and collapsed otherwise. -/
theorem claim10_collapsible (lp : String → String) (cfg : Config)
    (info : LocalizedTypeInfo) (depth : Nat) (m : TypeTreeItemMeta)
    (h : getMeta lp cfg info depth = Except.ok m) :
    (m.collapsibleState = .noChildren ↔ (info.f.children.map List.length).getD 0 = 0)
    ∧ ((info.f.children.map List.length).getD 0 ≠ 0 →
      info.f.purpose = some "jsx_properties" → m.collapsibleState = .expanded)
    ∧ ((info.f.children.map List.length).getD 0 ≠ 0 →
      info.f.purpose ≠ some "jsx_properties" →
      (m.collapsibleState = .expanded ↔ depth = 1)) := by
  unfold getMeta at h
  rcases hi : getIcon cfg info with e | icon
  · rw [hi] at h; cases h
  · rw [hi] at h
    injection h with h
    rw [← h]
    unfold getCollapsibleState
    by_cases hz : (info.f.children.map List.length).getD 0 = 0
    · rw [if_pos hz]
      refine ⟨by simp [hz], fun hnz _ => absurd hz hnz, fun hnz _ => absurd hz hnz⟩
    · rw [if_neg hz]
      by_cases hj : info.f.purpose = some "jsx_properties"
      · rw [if_pos hj]
        refine ⟨by simp [hz], fun _ _ => rfl, fun _ hnj => absurd hj hnj⟩
      · rw [if_neg hj]
        by_cases hd : depth = 1
        · rw [if_pos hd]
          exact ⟨by simp [hz], fun _ hj' => absurd hj' hj, fun _ _ => by simp [hd]⟩
        · rw [if_neg hd]
          exact ⟨by simp [hz], fun _ hj' => absurd hj' hj, fun _ _ => by simp [hd]⟩

/-- C10 witness: a jsx-properties node with one child is expanded at
depth 7. -/
theorem claim10_collapsible_witness : mJsx.collapsibleState = .expanded :=
  (claim10_collapsible lpId cfgOff jsxNode 7 mJsx rfl).2.1 (by decide) rfl

end TsTypeExplorer
